import Mathlib

/-!
Verification of the MetaReader repository (`reader.py`): EXIF image metadata
extraction (`ImageMeta`) and OpenCamera subtitle-log parsing (`VideoMeta`),
shallowly embedded in Lean.

Python's arithmetic on the extracted values is modelled exactly: a Python
float value is represented by the fraction type `Q` below (a quotient of two
integers, not normalised), whose operations are the exact rational versions of
the source's `+`, `-`, `*`, `/` and `round(x, 6)`.  The semantic reading of a
`Q` is given by `Q.toRat : Q → ℚ`.  Python exceptions are modelled by
`Except`, dictionary/tag lookups by `Option` fields, and `list`/`str` indexing
errors by explicit `IndexError`-style error values.
-/

set_option autoImplicit false

namespace MetaReader

/-- Exact fraction: numerator and (unnormalised) denominator.  Every value the
embedded program builds keeps a nonzero denominator; a zero denominator can
arise only from inputs on which the Python source raises
`ZeroDivisionError`, and all claims stay away from those. -/
structure Q where
  num : ℤ
  den : ℤ
deriving DecidableEq

/-- Embed an integer. -/
def Q.ofInt (z : ℤ) : Q := ⟨z, 1⟩

/-- Exact addition. -/
def Q.add (a b : Q) : Q := ⟨a.num * b.den + b.num * a.den, a.den * b.den⟩

/-- Exact negation. -/
def Q.neg (a : Q) : Q := ⟨-a.num, a.den⟩

/-- Exact multiplication. -/
def Q.mul (a b : Q) : Q := ⟨a.num * b.num, a.den * b.den⟩

/-- Exact division. -/
def Q.div (a b : Q) : Q := ⟨a.num * b.den, a.den * b.num⟩

/-- The rational value of a fraction (junk `0` when the denominator is `0`). -/
def Q.toRat (a : Q) : ℚ := (a.num : ℚ) / (a.den : ℚ)

/-- Round-half-to-even of `n / d` for `d > 0`, by integer arithmetic:
`f` is the floored quotient and `r` the remainder in `[0, d)`. -/
def rndPair (n d : ℤ) : ℤ :=
  let f := Int.fdiv n d
  let r := n - d * f
  if 2 * r < d then f
  else if d < 2 * r then f + 1
  else if f % 2 = 0 then f else f + 1

/-- Round-half-to-even of the value of a fraction (Python `round` to an
integer), normalising the sign of the denominator first. -/
def Q.rnd (a : Q) : ℤ :=
  if a.den < 0 then rndPair (-a.num) (-a.den) else rndPair a.num a.den

/-- Model of Python `round(x, 6)` on the fraction type. -/
def round6 (q : Q) : Q := ⟨Q.rnd (q.mul ⟨1000000, 1⟩), 1000000⟩

/-- Specification-level round-half-to-even on `ℚ` (Python `round` to an
integer, ties to even). -/
def rnde (x : ℚ) : ℤ :=
  if x - ⌊x⌋ < 1/2 then ⌊x⌋
  else if 1/2 < x - ⌊x⌋ then ⌊x⌋ + 1
  else if ⌊x⌋ % 2 = 0 then ⌊x⌋ else ⌊x⌋ + 1

/-- Specification-level `round(x, 6)` on `ℚ`. -/
def round6Rat (q : ℚ) : ℚ := ((rnde (q * 1000000) : ℤ) : ℚ) / 1000000

/-- Integer value of a list of decimal digit characters, most significant
first. -/
def digitsVal (l : List Char) : ℤ :=
  l.foldl (fun a c => a * 10 + ((c.toNat - 48 : ℕ) : ℤ)) 0

/-- Strip leading and trailing whitespace (Python `str.strip`). -/
def trimList (cs : List Char) : List Char :=
  ((cs.dropWhile Char.isWhitespace).reverse.dropWhile Char.isWhitespace).reverse

/-- Split a character list at every character satisfying `p`, keeping empty
pieces, as `re.split` with a character class does.  `acc` holds the current
piece reversed. -/
def splitCharsAux (p : Char → Bool) : List Char → List Char → List (List Char)
  | [], acc => [acc.reverse]
  | c :: rest, acc =>
    if p c then acc.reverse :: splitCharsAux p rest []
    else splitCharsAux p rest (c :: acc)

/-- Split a string at every character satisfying `p`, keeping empty pieces. -/
def splitChars (p : Char → Bool) (s : String) : List String :=
  (splitCharsAux p s.data []).map String.mk

/-- Split at every (non-overlapping, leftmost-first) occurrence of the
three-character separator `-->`, as Python `str.split("-->")`. -/
def splitArrowAux : List Char → List Char → List (List Char)
  | [], acc => [acc.reverse]
  | '-' :: '-' :: '>' :: rest, acc => acc.reverse :: splitArrowAux rest []
  | c :: rest, acc => splitArrowAux rest (c :: acc)

/-- Python `s.split("-->")`. -/
def splitArrow (s : String) : List String :=
  (splitArrowAux s.data []).map String.mk

/-- Python `s.split(c)[0]` for a one-character separator: the prefix before
the first occurrence of `c`. -/
def headToken (c : Char) (s : String) : String :=
  String.mk (s.data.takeWhile (fun d => !(d == c)))

/-- ASCII lowercasing of one character (Python `str.lower` on the ASCII
device strings this program compares). -/
def lowerChar (c : Char) : Char :=
  if 65 ≤ c.toNat ∧ c.toNat ≤ 90 then Char.ofNat (c.toNat + 32) else c

/-- ASCII `str.lower`. -/
def strLower (s : String) : String := String.mk (s.data.map lowerChar)

/-- Model of Python `int(s)` on a string: strip surrounding whitespace,
optional sign, then a nonempty run of decimal digits; `none` models
`ValueError`. -/
def pyInt? (s : String) : Option ℤ :=
  let cs := trimList s.data
  let sc : ℤ × List Char :=
    match cs with
    | '-' :: rest => (-1, rest)
    | '+' :: rest => (1, rest)
    | _ => (1, cs)
  if sc.2 ≠ [] ∧ sc.2.all Char.isDigit then some (sc.1 * digitsVal sc.2)
  else none

/-- Model of Python `float(s)` on the plain decimal forms that occur in this
repository's data: strip whitespace, optional sign, integer digits, optional
point and fraction digits; `none` models `ValueError`. -/
def pyFloat? (s : String) : Option Q :=
  let cs := trimList s.data
  let sc : ℤ × List Char :=
    match cs with
    | '-' :: rest => (-1, rest)
    | '+' :: rest => (1, rest)
    | _ => (1, cs)
  let intD := sc.2.takeWhile Char.isDigit
  let rest := sc.2.dropWhile Char.isDigit
  match rest with
  | [] => if intD ≠ [] then some ⟨sc.1 * digitsVal intD, 1⟩ else none
  | '.' :: rest2 =>
    let fracD := rest2.takeWhile Char.isDigit
    let rest3 := rest2.dropWhile Char.isDigit
    if rest3 = [] ∧ (intD ≠ [] ∨ fracD ≠ []) then
      some ⟨sc.1 * (digitsVal intD * 10 ^ fracD.length + digitsVal fracD),
            (10 : ℤ) ^ fracD.length⟩
    else none
  | _ => none

/-- Time-of-day value produced by `datetime.strptime` with fields
hour, minute, second, microsecond. -/
structure PyTime where
  hour : ℕ
  minute : ℕ
  second : ℕ
  micro : ℕ
deriving DecidableEq

/-- Parse one or two leading decimal digits bounded by `hi`, mirroring the
regexes `strptime` builds for `%H`, `%M`, `%S` (two digits when the two-digit
value is in range, otherwise one). -/
def parse2D (hi : ℕ) (cs : List Char) : Option (ℕ × List Char) :=
  match cs with
  | [] => none
  | [a] => if a.isDigit then some (a.toNat - 48, []) else none
  | a :: b :: rest =>
    if a.isDigit then
      if b.isDigit ∧ (a.toNat - 48) * 10 + (b.toNat - 48) ≤ hi then
        some ((a.toNat - 48) * 10 + (b.toNat - 48), rest)
      else some (a.toNat - 48, b :: rest)
    else none

/-- Parse `%f`: one to six digits, right-padded to microseconds. -/
def parseFrac (cs : List Char) : Option (ℕ × List Char) :=
  let ds := (cs.takeWhile Char.isDigit).take 6
  if ds = [] then none
  else some ((ds.foldl (fun a c => a * 10 + (c.toNat - 48)) 0) * 10 ^ (6 - ds.length),
             cs.drop ds.length)

/-- Model of `datetime.strptime(s, "%H:%M:%S,%f")` (and with a leading space in
the format when `leading` is set, which `strptime` treats as "at least one
whitespace character").  The whole input must be consumed; `none` models
`ValueError`. -/
def strptimeHMSf (leading : Bool) (s : String) : Option PyTime :=
  let cs := s.data
  let start : Option (List Char) :=
    if leading then
      match cs with
      | c :: _ => if c.isWhitespace then some (cs.dropWhile Char.isWhitespace) else none
      | [] => none
    else some cs
  match start with
  | none => none
  | some cs1 =>
    match parse2D 23 cs1 with
    | none => none
    | some (h, cs2) =>
      match cs2 with
      | ':' :: cs3 =>
        match parse2D 59 cs3 with
        | none => none
        | some (m, cs4) =>
          match cs4 with
          | ':' :: cs5 =>
            match parse2D 61 cs5 with
            | none => none
            | some (sec, cs6) =>
              match cs6 with
              | ',' :: cs7 =>
                match parseFrac cs7 with
                | none => none
                | some (f, cs8) =>
                  if cs8 = [] then some ⟨h, m, sec, f⟩ else none
              | _ => none
          | _ => none
      | _ => none

/-- `ImageMeta.__get_decimal_from_dms` (reader.py lines 44-64): convert a
degree/minute/second triple of numerator-denominator pairs and a hemisphere
reference into decimal degrees, negating each term for `S`/`W`, rounded to six
decimal places. -/
def get_decimal_from_dms (dms : (ℤ × ℤ) × (ℤ × ℤ) × (ℤ × ℤ)) (ref : String) : Q :=
  let degrees := (Q.ofInt dms.1.1).div (Q.ofInt dms.1.2)
  let minutes := ((Q.ofInt dms.2.1.1).div (Q.ofInt dms.2.1.2)).div (Q.ofInt 60)
  let seconds := ((Q.ofInt dms.2.2.1).div (Q.ofInt dms.2.2.2)).div (Q.ofInt 3600)
  if ref = "S" ∨ ref = "W" then round6 ((degrees.neg.add minutes.neg).add seconds.neg)
  else round6 ((degrees.add minutes).add seconds)

/-- The two kinds of Python exception relevant inside `VideoMeta.readfromsrt`'s
`try` block: `IndexError` (not caught — it escapes the whole call) and
`ValueError` (caught — the block is skipped). -/
inductive PyErr
  | index
  | value
deriving DecidableEq

instance exceptDecEq {ε α : Type} [DecidableEq ε] [DecidableEq α] :
    DecidableEq (Except ε α) := fun x y =>
  match x, y with
  | Except.error a, Except.error b =>
    if h : a = b then Decidable.isTrue (by rw [h])
    else Decidable.isFalse (by intro hh; cases hh; exact h rfl)
  | Except.error _, Except.ok _ => Decidable.isFalse (by intro hh; cases hh)
  | Except.ok _, Except.error _ => Decidable.isFalse (by intro hh; cases hh)
  | Except.ok a, Except.ok b =>
    if h : a = b then Decidable.isTrue (by rw [h])
    else Decidable.isFalse (by intro hh; cases hh; exact h rfl)

/-- Exception-propagating sequencing (Python statement order). -/
def ebind {ε α β : Type} (x : Except ε α) (f : α → Except ε β) : Except ε β :=
  match x with
  | Except.error e => Except.error e
  | Except.ok a => f a

/-- `int(s)` raising `ValueError` on failure. -/
def intS (s : String) : Except PyErr ℤ :=
  match pyInt? s with
  | some z => Except.ok z
  | none => Except.error PyErr.value

/-- `float(s)` raising `ValueError` on failure. -/
def floatS (s : String) : Except PyErr Q :=
  match pyFloat? s with
  | some q => Except.ok q
  | none => Except.error PyErr.value

/-- List indexing `l[i]` raising `IndexError` when out of range. -/
def idxS (l : List String) (i : ℕ) : Except PyErr String :=
  match l.get? i with
  | some s => Except.ok s
  | none => Except.error PyErr.index

/-- `datetime.strptime` raising `ValueError` on a format mismatch. -/
def timeS (leading : Bool) (s : String) : Except PyErr PyTime :=
  match strptimeHMSf leading s with
  | some t => Except.ok t
  | none => Except.error PyErr.value

/-- The character class of `re.split('[Â°\'\"\,\ ]', ...)` in reader.py line
216 (the source file holds the two bytes `Â` U+00C2 and `°` U+00B0 plus
quote, double quote, comma and space). -/
def locDelim (c : Char) : Bool :=
  c == Char.ofNat 0xC2 || c == Char.ofNat 0xB0 || c == Char.ofNat 39 ||
  c == Char.ofNat 34 || c == ',' || c == ' '

/-- Split a coordinate line on the delimiter class, keeping empty tokens, as
`re.split` does. -/
def splitLoc (s : String) : List String := splitChars locDelim s

/-- One record of `VideoMeta.readfromsrt` (reader.py lines 220-228). -/
structure SrtRecord where
  datetime : String
  lat : Q
  lng : Q
  heading : Q
  altitude : Q
  frame_start : PyTime
  frame_end : PyTime
deriving DecidableEq

/-- The body of the `try` block of `VideoMeta.readfromsrt` (reader.py lines
216-228) after the counter has matched at line index `itr`: every lookup and
conversion in the source's evaluation order, classifying failures as
`IndexError` or `ValueError`. -/
def parseBlock (data : List String) (itr : ℕ) : Except PyErr SrtRecord :=
  ebind (idxS data (itr+3)) fun line3 =>
  let loc := splitLoc line3
  ebind (idxS data (itr+1)) fun line1 =>
  let s_time := headToken ' ' ((splitArrow line1).headD "")
  ebind (idxS (splitArrow line1) 1) fun e0 =>
  let e_time := headToken '\n' e0
  ebind (idxS data (itr+2)) fun line2 =>
  let dt := headToken '\n' line2
  ebind (idxS loc 0) fun a0 =>
  ebind (intS a0) fun d0 =>
  ebind (idxS loc 1) fun a1 =>
  ebind (intS a1) fun d1 =>
  ebind (idxS loc 2) fun a2 =>
  ebind (intS a2) fun d2 =>
  ebind (idxS loc 5) fun b0 =>
  ebind (intS b0) fun g0 =>
  ebind (idxS loc 6) fun b1 =>
  ebind (intS b1) fun g1 =>
  ebind (idxS loc 7) fun b2 =>
  ebind (intS b2) fun g2 =>
  ebind (idxS loc 12) fun h12 =>
  ebind (floatS h12) fun heading =>
  ebind (idxS loc 10) fun a10 =>
  ebind (floatS (headToken 'm' a10)) fun altitude =>
  ebind (timeS false s_time) fun fs =>
  ebind (timeS true e_time) fun fe =>
  Except.ok
    { datetime := dt
      lat := round6 (((Q.ofInt d0).add ((Q.ofInt d1).div (Q.ofInt 60))).add
                     ((Q.ofInt d2).div (Q.ofInt 3600)))
      lng := round6 (((Q.ofInt g0).add ((Q.ofInt g1).div (Q.ofInt 60))).add
                     ((Q.ofInt g2).div (Q.ofInt 3600)))
      heading := heading
      altitude := altitude
      frame_start := fs
      frame_end := fe }

/-- The scanning loop of `VideoMeta.readfromsrt` (reader.py lines 211-230):
`rest` is the suffix of `data` starting at line index `itr`, `counter` the
running block counter.  Lines that do not parse as the current counter are
skipped; on a counter match the counter is incremented first, then the block
is parsed — a `ValueError` drops the block, an `IndexError` escapes. -/
def srtLoop (data : List String) : ℕ → ℤ → List String → Except PyErr (List SrtRecord)
  | _, _, [] => Except.ok []
  | itr, counter, _line :: rest =>
    match pyInt? _line with
    | none => srtLoop data (itr+1) counter rest
    | some n =>
      if n = counter then
        match parseBlock data itr with
        | Except.error PyErr.index => Except.error PyErr.index
        | Except.error PyErr.value => srtLoop data (itr+1) (counter+1) rest
        | Except.ok r =>
          match srtLoop data (itr+1) (counter+1) rest with
          | Except.error e => Except.error e
          | Except.ok l => Except.ok (r :: l)
      else srtLoop data (itr+1) counter rest

/-- `VideoMeta.readfromsrt` (reader.py lines 186-252) restricted to its parsing
behaviour: input is the list of lines returned by `readlines()` (each line
keeping its trailing newline); the result is the collected record list, or the
uncaught exception that escapes the call. -/
def readfromsrt (data : List String) : Except PyErr (List SrtRecord) :=
  srtLoop data 0 1 data

/-- Python exceptions that can escape `ImageMeta.readfromimage` /
`readfrombatch`: a missing file (the `ValueError` of `__checkifileexist`), a
missing dictionary key (`KeyError`), an out-of-range index (`IndexError`), or
a numeric conversion failure (`ValueError`). -/
inductive ImgErr
  | fileNotFound
  | keyError (k : String)
  | indexError
  | valueError
deriving DecidableEq

/-- Dictionary lookup `d[k]` raising `KeyError` when the key is absent. -/
def keyE {α : Type} (o : Option α) (k : String) : Except ImgErr α :=
  match o with
  | some v => Except.ok v
  | none => Except.error (ImgErr.keyError k)

/-- List indexing raising `IndexError`. -/
def idxE (l : List String) (i : ℕ) : Except ImgErr String :=
  match l.get? i with
  | some s => Except.ok s
  | none => Except.error ImgErr.indexError

/-- `float(s)` raising `ValueError`. -/
def floatE (s : String) : Except ImgErr Q :=
  match pyFloat? s with
  | some q => Except.ok q
  | none => Except.error ImgErr.valueError

/-- The named EXIF tags `ImageMeta.readfromimage` reads from `labeled_exif`;
an absent tag is a missing dictionary key.  Rational-valued tags are
numerator-denominator pairs as PIL returns them. -/
structure ExifTags where
  DateTimeOriginal : Option String
  ImageWidth : Option ℤ
  ImageLength : Option ℤ
  FocalLength : Option (ℤ × ℤ)
  UserComment : Option String
  Make : Option String
  Model : Option String

/-- The GPS sub-dictionary entries `ImageMeta.readfromimage` reads from
`geotags`. -/
structure GeoTags where
  GPSLatitude : Option ((ℤ × ℤ) × (ℤ × ℤ) × (ℤ × ℤ))
  GPSLatitudeRef : Option String
  GPSLongitude : Option ((ℤ × ℤ) × (ℤ × ℤ) × (ℤ × ℤ))
  GPSLongitudeRef : Option String
  GPSImgDirection : Option (ℤ × ℤ)
  GPSAltitude : Option (ℤ × ℤ)

/-- The record (Python dict) returned by `ImageMeta.readfromimage`
(reader.py lines 108-131).  The three sensor-constant fields are `Option`
because the source sets those dictionary keys only for the known device. -/
structure ImgRecord where
  datetime : String
  imgwidth : ℤ
  imgheight : ℤ
  focallength : Q
  lat : Q
  lng : Q
  heading : Q
  altitude : Q
  yaw : Q
  pitch : Q
  roll : Q
  senwidth : Option Q
  senheight : Option Q
  h_fov : Option Q
deriving DecidableEq

/-- The delimiter class of `re.split("[\x00^:,]", ...)` in reader.py line
119: NUL, caret, colon, comma. -/
def commentDelim (c : Char) : Bool :=
  c == Char.ofNat 0 || c == '^' || c == ':' || c == ','

/-- Split the orientation comment, keeping empty tokens as `re.split` does. -/
def splitComment (s : String) : List String := splitChars commentDelim s

/-- The hard-coded device profile test of reader.py line 126:
case-insensitive match of make `samsung` and model `sm-a505f`. -/
def isKnownDevice (mk mdl : String) : Bool :=
  strLower mk == "samsung" && strLower mdl == "sm-a505f"

/-- The sensor width constant (5.18 mm) of reader.py line 127. -/
def sen_width : Q := ⟨518, 100⟩

/-- The sensor height constant (3.89 mm) of reader.py line 128. -/
def sen_height : Q := ⟨389, 100⟩

/-- The horizontal field-of-view constant (66.8°) of reader.py line 129. -/
def h_fov_const : Q := ⟨668, 10⟩

/-- `ImageMeta.readfromimage` (reader.py lines 67-131) after EXIF decoding:
given the decoded named tags and the GPS sub-dictionary, build the returned
dict in the source's statement order, failing with the first uncaught
exception. -/
def readfromimage (e : ExifTags) (g : GeoTags) : Except ImgErr ImgRecord :=
  ebind (keyE e.DateTimeOriginal "DateTimeOriginal") fun dt =>
  ebind (keyE e.ImageWidth "ImageWidth") fun w =>
  ebind (keyE e.ImageLength "ImageLength") fun ht =>
  ebind (keyE e.FocalLength "FocalLength") fun fl =>
  ebind (keyE g.GPSLatitude "GPSLatitude") fun latDms =>
  ebind (keyE g.GPSLatitudeRef "GPSLatitudeRef") fun latRef =>
  ebind (keyE g.GPSLongitude "GPSLongitude") fun lngDms =>
  ebind (keyE g.GPSLongitudeRef "GPSLongitudeRef") fun lngRef =>
  ebind (keyE g.GPSImgDirection "GPSImgDirection") fun dir =>
  ebind (keyE g.GPSAltitude "GPSAltitude") fun alt =>
  ebind (keyE e.UserComment "UserComment") fun uc =>
  ebind (idxE (splitComment uc) 4) fun t4 =>
  ebind (floatE t4) fun yaw =>
  ebind (idxE (splitComment uc) 6) fun t6 =>
  ebind (floatE t6) fun pitch =>
  ebind (idxE (splitComment uc) 8) fun t8 =>
  ebind (floatE t8) fun roll =>
  ebind (keyE e.Make "Make") fun mk =>
  ebind (keyE e.Model "Model") fun mdl =>
  Except.ok
    { datetime := dt
      imgwidth := w
      imgheight := ht
      focallength := (Q.ofInt fl.1).div (Q.ofInt fl.2)
      lat := get_decimal_from_dms latDms latRef
      lng := get_decimal_from_dms lngDms lngRef
      heading := (Q.ofInt dir.1).div (Q.ofInt dir.2)
      altitude := (Q.ofInt alt.1).div (Q.ofInt alt.2)
      yaw := yaw
      pitch := pitch
      roll := roll
      senwidth := if isKnownDevice mk mdl then some sen_width else none
      senheight := if isKnownDevice mk mdl then some sen_height else none
      h_fov := if isKnownDevice mk mdl then some h_fov_const else none }

/-- A batch entry: the per-image dict plus the `imgname` key added by
`readfrombatch` (reader.py line 149). -/
structure BatchRecord where
  meta : ImgRecord
  imgname : String
deriving DecidableEq

/-- `os.path.basename`: the suffix after the last `/`. -/
def basename (p : String) : String :=
  String.mk ((p.data.reverse.takeWhile (fun c => !(c == '/'))).reverse)

/-- One iteration of the `readfrombatch` loop (reader.py lines 145-150): the
filesystem is modelled as a partial map from path to decoded tag data; a
missing file raises the `ValueError` of `__checkifileexist`. -/
def extractOne (fs : String → Option (ExifTags × GeoTags)) (p : String) :
    Except ImgErr BatchRecord :=
  match fs p with
  | none => Except.error ImgErr.fileNotFound
  | some (e, g) =>
    ebind (readfromimage e g) fun r => Except.ok { meta := r, imgname := basename p }

/-- The collection loop of `ImageMeta.readfrombatch`: process paths in order,
propagating the first failure. -/
def readfrombatchGo (fs : String → Option (ExifTags × GeoTags)) :
    List String → Except ImgErr (List BatchRecord)
  | [] => Except.ok []
  | p :: rest =>
    ebind (extractOne fs p) fun r =>
    ebind (readfrombatchGo fs rest) fun rs =>
    Except.ok (r :: rs)

/-- A cell of the written CSV table. -/
inductive CsvCell
  | str (s : String)
  | int (z : ℤ)
  | num (q : Q)
  | blank
deriving DecidableEq

/-- The fixed column list of reader.py lines 156-157. -/
def imageCsvColumns : List String :=
  ["datetime", "imgwidth", "imgheight", "focallength", "lat", "lng", "heading",
   "altitude", "yaw", "pitch", "roll", "senwidth", "senheight", "h_fov", "imgname"]

/-- `csv.DictWriter.writerow` on one batch record: the value stored under each
column name, with an absent key rendered as the empty default. -/
def recordCell (b : BatchRecord) (c : String) : CsvCell :=
  if c = "datetime" then CsvCell.str b.meta.datetime
  else if c = "imgwidth" then CsvCell.int b.meta.imgwidth
  else if c = "imgheight" then CsvCell.int b.meta.imgheight
  else if c = "focallength" then CsvCell.num b.meta.focallength
  else if c = "lat" then CsvCell.num b.meta.lat
  else if c = "lng" then CsvCell.num b.meta.lng
  else if c = "heading" then CsvCell.num b.meta.heading
  else if c = "altitude" then CsvCell.num b.meta.altitude
  else if c = "yaw" then CsvCell.num b.meta.yaw
  else if c = "pitch" then CsvCell.num b.meta.pitch
  else if c = "roll" then CsvCell.num b.meta.roll
  else if c = "senwidth" then (match b.meta.senwidth with
    | some q => CsvCell.num q
    | none => CsvCell.blank)
  else if c = "senheight" then (match b.meta.senheight with
    | some q => CsvCell.num q
    | none => CsvCell.blank)
  else if c = "h_fov" then (match b.meta.h_fov with
    | some q => CsvCell.num q
    | none => CsvCell.blank)
  else if c = "imgname" then CsvCell.str b.imgname
  else CsvCell.blank

/-- The table content written by `readfrombatch` when `csvwrite` is set:
header row followed by one row per record, in order. -/
def mkImageTable (recs : List BatchRecord) : List (List CsvCell) :=
  (imageCsvColumns.map CsvCell.str) :: recs.map (fun b => imageCsvColumns.map (recordCell b))

/-- `ImageMeta.readfrombatch` (reader.py lines 133-172): collect records in
input order; any per-image failure escapes, aborting the call before anything
is returned or written.  On success the optional second component is the table
content handed to the CSV retry loop. -/
def readfrombatch (fs : String → Option (ExifTags × GeoTags)) (paths : List String)
    (csvwrite : Bool) : Except ImgErr (List BatchRecord × Option (List (List CsvCell))) :=
  ebind (readfrombatchGo fs paths) fun recs =>
  Except.ok (recs, if csvwrite then some (mkImageTable recs) else none)

/-- `csv.DictWriter.writerow` for the generic table exporter: the row for one
record (an association list of column name to cell text), with absent fields
rendered empty. -/
def writerow (cols : List String) (rec : List (String × String)) : List String :=
  cols.map (fun c => ((rec.lookup c).getD ""))

/-- The CSV retry loop shared by reader.py lines 160-171 and 239-250
(`while True: try: open/write/break except IOError: input(...)`), modelled on
a trace `env` of open-attempt outcomes (one entry per attempt; between two
attempts the operator is prompted and acknowledges).  `none` means every
attempt in the trace failed and the loop is still retrying; `some t` is the
table written by the first successful attempt. -/
def writeTableRetry (env : List Bool) (cols : List String)
    (records : List (List (String × String))) : Option (List (List String)) :=
  match env with
  | [] => none
  | ok :: rest =>
    if ok then some (cols :: records.map (writerow cols))
    else writeTableRetry rest cols records

/-- A concrete `.srt` line list (as `readlines()` returns it): a well-formed
block numbered 1, a block numbered 2 whose coordinate line starts with a
non-numeric token, and a well-formed block numbered 3. -/
def srtData3 : List String :=
  ["1\n",
   "00:00:00,000 --> 00:00:01,000\n",
   "2021-05-20 10:51:50\n",
   "10 20 30 x x 11 21 31 x x 99.9m x 250.0\n",
   "\n",
   "2\n",
   "00:00:01,000 --> 00:00:02,000\n",
   "2021-05-20 10:51:51\n",
   "aa 20 30 x x 11 21 31 x x 99.9m x 250.0\n",
   "\n",
   "3\n",
   "00:00:02,000 --> 00:00:03,000\n",
   "2021-05-20 10:51:52\n",
   "12 6 36 x x 45 30 0 x x 88.5m x 181.25\n",
   "\n"]

/-- The record parsed from block 1 of `srtData3`. -/
def srtRec1 : SrtRecord :=
  { datetime := "2021-05-20 10:51:50"
    lat := round6 (((Q.ofInt 10).add ((Q.ofInt 20).div (Q.ofInt 60))).add
                   ((Q.ofInt 30).div (Q.ofInt 3600)))
    lng := round6 (((Q.ofInt 11).add ((Q.ofInt 21).div (Q.ofInt 60))).add
                   ((Q.ofInt 31).div (Q.ofInt 3600)))
    heading := ⟨2500, 10⟩
    altitude := ⟨999, 10⟩
    frame_start := ⟨0, 0, 0, 0⟩
    frame_end := ⟨0, 0, 1, 0⟩ }

/-- The record parsed from block 3 of `srtData3`. -/
def srtRec3 : SrtRecord :=
  { datetime := "2021-05-20 10:51:52"
    lat := round6 (((Q.ofInt 12).add ((Q.ofInt 6).div (Q.ofInt 60))).add
                   ((Q.ofInt 36).div (Q.ofInt 3600)))
    lng := round6 (((Q.ofInt 45).add ((Q.ofInt 30).div (Q.ofInt 60))).add
                   ((Q.ofInt 0).div (Q.ofInt 3600)))
    heading := ⟨18125, 100⟩
    altitude := ⟨885, 10⟩
    frame_start := ⟨0, 0, 2, 0⟩
    frame_end := ⟨0, 0, 3, 0⟩ }

/-- A minimal structurally well-formed `.srt` line list: one block whose
counter line is followed by a timing line with the arrow, a datetime line and
a 13-token coordinate line. -/
def srtOkData : List String :=
  ["1\n",
   "00:00:00,000 --> 00:00:01,000\n",
   "d\n",
   "0 0 0 0 0 0 0 0 0 0 0 0 0\n"]

/-- Concrete decoded EXIF tags of a matching (samsung / SM-A505F) image. -/
def exifA : ExifTags :=
  { DateTimeOriginal := some "2021:05:20 10:51:50"
    ImageWidth := some 4032
    ImageLength := some 3024
    FocalLength := some (430, 100)
    UserComment := some "0,1,2,3,40.5,5,20.25,7,0.75"
    Make := some "samsung"
    Model := some "SM-A505F" }

/-- Concrete decoded GPS tags for `exifA`. -/
def geoA : GeoTags :=
  { GPSLatitude := some ((10, 1), (30, 1), (0, 1))
    GPSLatitudeRef := some "N"
    GPSLongitude := some ((20, 1), (0, 1), (0, 1))
    GPSLongitudeRef := some "E"
    GPSImgDirection := some (1234, 10)
    GPSAltitude := some (2105, 10) }

/-- `geoA` with the `GPSAltitude` tag removed. -/
def geoNoAlt : GeoTags :=
  { GPSLatitude := some ((10, 1), (30, 1), (0, 1))
    GPSLatitudeRef := some "N"
    GPSLongitude := some ((20, 1), (0, 1), (0, 1))
    GPSLongitudeRef := some "E"
    GPSImgDirection := some (1234, 10)
    GPSAltitude := none }

/-- The record `readfromimage` extracts from `exifA` / `geoA`. -/
def imgRecA : ImgRecord :=
  { datetime := "2021:05:20 10:51:50"
    imgwidth := 4032
    imgheight := 3024
    focallength := ⟨430, 100⟩
    lat := get_decimal_from_dms ((10, 1), (30, 1), (0, 1)) "N"
    lng := get_decimal_from_dms ((20, 1), (0, 1), (0, 1)) "E"
    heading := ⟨1234, 10⟩
    altitude := ⟨2105, 10⟩
    yaw := ⟨405, 10⟩
    pitch := ⟨2025, 100⟩
    roll := ⟨75, 100⟩
    senwidth := some sen_width
    senheight := some sen_height
    h_fov := some h_fov_const }

/-- `imgRecA` with its batch name. -/
def batchRecA : BatchRecord := { meta := imgRecA, imgname := "a.jpg" }

/-- A concrete two-path filesystem: `a.jpg` decodes to `exifA`/`geoA`,
anything else does not exist. -/
def fsW (p : String) : Option (ExifTags × GeoTags) :=
  if p = "a.jpg" then some (exifA, geoA) else none

/-- "Is not an uncaught `IndexError`": the only way `parseBlock` can abort the
whole `readfromsrt` call. -/
def noIdx {α : Type} (x : Except PyErr α) : Prop := x ≠ Except.error PyErr.index

theorem Q.toRat_ofInt (z : ℤ) : (Q.ofInt z).toRat = (z : ℚ) := by
  simp [Q.ofInt, Q.toRat]

theorem Q.toRat_neg (a : Q) : a.neg.toRat = -a.toRat := by
  simp [Q.neg, Q.toRat, neg_div]

theorem Q.toRat_mul (a b : Q) : (a.mul b).toRat = a.toRat * b.toRat := by
  simp only [Q.mul, Q.toRat, Int.cast_mul]
  rw [div_mul_div_comm]

theorem Q.toRat_div (a b : Q) : (a.div b).toRat = a.toRat / b.toRat := by
  simp only [Q.div, Q.toRat, Int.cast_mul]
  rw [div_eq_mul_inv ((a.num : ℚ) / (a.den : ℚ)), inv_div, div_mul_div_comm]

theorem Q.toRat_add {a b : Q} (ha : a.den ≠ 0) (hb : b.den ≠ 0) :
    (a.add b).toRat = a.toRat + b.toRat := by
  have ha' : (a.den : ℚ) ≠ 0 := Int.cast_ne_zero.mpr ha
  have hb' : (b.den : ℚ) ≠ 0 := Int.cast_ne_zero.mpr hb
  simp only [Q.add, Q.toRat]
  push_cast
  field_simp

theorem fdiv_eq_floor (n d : ℤ) (hd : 0 < d) :
    Int.fdiv n d = ⌊(n : ℚ) / (d : ℚ)⌋ := by
  rw [Int.fdiv_eq_ediv _ hd.le]
  obtain ⟨m, rfl⟩ : ∃ m : ℕ, d = (m : ℤ) := ⟨d.toNat, (Int.toNat_of_nonneg hd.le).symm⟩
  rw [show ((m : ℤ) : ℚ) = (m : ℚ) from by push_cast; ring]
  exact (Rat.floor_intCast_div_natCast n m).symm

theorem rndPair_eq_rnde (n d : ℤ) (hd : 0 < d) :
    rndPair n d = rnde ((n : ℚ) / (d : ℚ)) := by
  have hd' : (0 : ℚ) < (d : ℚ) := by exact_mod_cast hd
  unfold rndPair rnde
  rw [← fdiv_eq_floor n d hd]
  have hr : (n : ℚ) / (d : ℚ) - (Int.fdiv n d : ℚ) =
      ((n - d * Int.fdiv n d : ℤ) : ℚ) / (d : ℚ) := by
    push_cast
    field_simp
  have h1 : ((n : ℚ) / (d : ℚ) - (Int.fdiv n d : ℚ) < 1/2) ↔
      (2 * (n - d * Int.fdiv n d) < d) := by
    rw [hr, div_lt_iff₀ hd']
    constructor
    · intro h
      push_cast at h
      have h2 : ((2 * (n - d * Int.fdiv n d) : ℤ) : ℚ) < (d : ℚ) := by
        push_cast
        linarith
      exact_mod_cast h2
    · intro h
      have h2 : ((2 * (n - d * Int.fdiv n d) : ℤ) : ℚ) < (d : ℚ) := by exact_mod_cast h
      push_cast at h2 ⊢
      linarith
  have h2 : (1/2 < (n : ℚ) / (d : ℚ) - (Int.fdiv n d : ℚ)) ↔
      (d < 2 * (n - d * Int.fdiv n d)) := by
    rw [hr, lt_div_iff₀ hd']
    constructor
    · intro h
      push_cast at h
      have h3 : (d : ℚ) < ((2 * (n - d * Int.fdiv n d) : ℤ) : ℚ) := by
        push_cast
        linarith
      exact_mod_cast h3
    · intro h
      have h3 : (d : ℚ) < ((2 * (n - d * Int.fdiv n d) : ℤ) : ℚ) := by exact_mod_cast h
      push_cast at h3 ⊢
      linarith
  simp only [← h1, ← h2]

theorem Q.rnd_eq_rnde {a : Q} (ha : a.den ≠ 0) : a.rnd = rnde a.toRat := by
  unfold Q.rnd Q.toRat
  rcases lt_or_gt_of_ne ha with h | h
  · rw [if_pos h, rndPair_eq_rnde _ _ (by omega : (0:ℤ) < -a.den)]
    congr 1
    push_cast
    rw [neg_div_neg_eq]
  · rw [if_neg (by omega), rndPair_eq_rnde _ _ h]

theorem Q.mul_den (a b : Q) : (a.mul b).den = a.den * b.den := rfl

theorem round6_toRat {q : Q} (h : q.den ≠ 0) :
    (round6 q).toRat = round6Rat q.toRat := by
  have hM : (q.mul ⟨1000000, 1⟩).den ≠ 0 := by
    rw [Q.mul_den]
    simpa using h
  show ((Q.rnd (q.mul ⟨1000000, 1⟩) : ℤ) : ℚ) / ((1000000 : ℤ) : ℚ) = _
  rw [Q.rnd_eq_rnde hM, Q.toRat_mul]
  have hM2 : (Q.mk 1000000 1).toRat = 1000000 := by
    simp [Q.toRat]
  rw [hM2]
  norm_num [round6Rat]

theorem rnde_nonneg {x : ℚ} (hx : 0 ≤ x) : 0 ≤ rnde x := by
  have hf : 0 ≤ ⌊x⌋ := Int.le_floor.mpr (by exact_mod_cast hx)
  unfold rnde
  split_ifs <;> omega

theorem round6Rat_nonneg {x : ℚ} (hx : 0 ≤ x) : 0 ≤ round6Rat x := by
  unfold round6Rat
  apply div_nonneg _ (by norm_num)
  exact_mod_cast rnde_nonneg (by positivity)

theorem ebind_ok {ε α β : Type} {x : Except ε α} {f : α → Except ε β} {b : β}
    (h : ebind x f = Except.ok b) : ∃ a, x = Except.ok a ∧ f a = Except.ok b := by
  cases x with
  | error e => simp [ebind] at h
  | ok a => exact ⟨a, rfl, h⟩

theorem ebind_noIdx {α β : Type} {x : Except PyErr α} {f : α → Except PyErr β}
    (hx : noIdx x) (hf : ∀ a, x = Except.ok a → noIdx (f a)) : noIdx (ebind x f) := by
  cases x with
  | error e =>
    show (Except.error e : Except PyErr β) ≠ Except.error PyErr.index
    intro hc
    injection hc with h
    exact hx (by rw [h])
  | ok a => simpa only [ebind] using hf a rfl

theorem intS_noIdx (s : String) : noIdx (intS s) := by
  unfold intS noIdx
  cases pyInt? s <;> simp

theorem floatS_noIdx (s : String) : noIdx (floatS s) := by
  unfold floatS noIdx
  cases pyFloat? s <;> simp

theorem timeS_noIdx (b : Bool) (s : String) : noIdx (timeS b s) := by
  unfold timeS noIdx
  cases strptimeHMSf b s <;> simp

theorem noIdx_ok {α : Type} (a : α) : noIdx (Except.ok a) := by
  simp [noIdx]

theorem idxS_ok {l : List String} {i : ℕ} {s : String} :
    idxS l i = Except.ok s ↔ l.get? i = some s := by
  unfold idxS
  cases l.get? i <;> simp

theorem idxS_noIdx_of_lt {l : List String} {i : ℕ} (h : i < l.length) :
    noIdx (idxS l i) := by
  unfold idxS noIdx
  rw [List.get?_eq_get h]
  simp

theorem parseBlock_noIdx (data : List String) (itr : ℕ)
    (h3 : itr + 3 < data.length)
    (harrow : ∀ l1, data.get? (itr+1) = some l1 → 2 ≤ (splitArrow l1).length)
    (hloc : ∀ l3, data.get? (itr+3) = some l3 → 13 ≤ (splitLoc l3).length) :
    noIdx (parseBlock data itr) := by
  unfold parseBlock
  apply ebind_noIdx (idxS_noIdx_of_lt h3)
  intro line3 hline3
  have hloc13 := hloc line3 (idxS_ok.mp hline3)
  apply ebind_noIdx (idxS_noIdx_of_lt (by omega))
  intro line1 hline1
  have harrow2 := harrow line1 (idxS_ok.mp hline1)
  apply ebind_noIdx (idxS_noIdx_of_lt (by omega))
  intro e0 _
  apply ebind_noIdx (idxS_noIdx_of_lt (by omega))
  intro line2 _
  apply ebind_noIdx (idxS_noIdx_of_lt (by omega))
  intro a0 _
  apply ebind_noIdx (intS_noIdx a0)
  intro d0 _
  apply ebind_noIdx (idxS_noIdx_of_lt (by omega))
  intro a1 _
  apply ebind_noIdx (intS_noIdx a1)
  intro d1 _
  apply ebind_noIdx (idxS_noIdx_of_lt (by omega))
  intro a2 _
  apply ebind_noIdx (intS_noIdx a2)
  intro d2 _
  apply ebind_noIdx (idxS_noIdx_of_lt (by omega))
  intro b0 _
  apply ebind_noIdx (intS_noIdx b0)
  intro g0 _
  apply ebind_noIdx (idxS_noIdx_of_lt (by omega))
  intro b1 _
  apply ebind_noIdx (intS_noIdx b1)
  intro g1 _
  apply ebind_noIdx (idxS_noIdx_of_lt (by omega))
  intro b2 _
  apply ebind_noIdx (intS_noIdx b2)
  intro g2 _
  apply ebind_noIdx (idxS_noIdx_of_lt (by omega))
  intro h12 _
  apply ebind_noIdx (floatS_noIdx h12)
  intro heading _
  apply ebind_noIdx (idxS_noIdx_of_lt (by omega))
  intro a10 _
  apply ebind_noIdx (floatS_noIdx _)
  intro altitude _
  apply ebind_noIdx (timeS_noIdx _ _)
  intro fs _
  apply ebind_noIdx (timeS_noIdx _ _)
  intro fe _
  exact noIdx_ok _

theorem srtLoop_structured_ok (data : List String)
    (H : ∀ itr, itr < data.length → (pyInt? (data.getD itr "")).isSome = true →
      itr + 3 < data.length ∧ 2 ≤ (splitArrow (data.getD (itr+1) "")).length ∧
      13 ≤ (splitLoc (data.getD (itr+3) "")).length) :
    ∀ rest itr counter, rest = data.drop itr →
      ∃ l, srtLoop data itr counter rest = Except.ok l := by
  intro rest
  induction rest with
  | nil =>
    intro itr counter _
    exact ⟨[], rfl⟩
  | cons line rest ih =>
    intro itr counter hdrop
    have hget : data.get? itr = some line := by
      have h0 : (data.drop itr).get? 0 = some line := by rw [← hdrop]; rfl
      rw [List.get?_drop] at h0
      simpa using h0
    obtain ⟨hlen, -⟩ := List.get?_eq_some.mp hget
    have hrest : rest = data.drop (itr+1) := by
      have h1 : data.drop (itr+1) = (data.drop itr).drop 1 := by
        rw [List.drop_drop, Nat.add_comm]
      rw [h1, ← hdrop]
      rfl
    have hgetD : data.getD itr "" = line := by
      show (data.get? itr).getD "" = line
      rw [hget]
      rfl
    cases hint : pyInt? line with
    | none =>
      simp only [srtLoop, hint]
      exact ih (itr+1) counter hrest
    | some n =>
      have hsome : (pyInt? (data.getD itr "")).isSome = true := by
        rw [hgetD, hint]
        rfl
      obtain ⟨h3, harr, hloc⟩ := H itr hlen hsome
      by_cases hn : n = counter
      · have hnoidx : noIdx (parseBlock data itr) := by
          apply parseBlock_noIdx data itr h3
          · intro l1 hl1
            have : data.getD (itr+1) "" = l1 := by
              show (data.get? (itr+1)).getD "" = l1
              rw [hl1]
              rfl
            rwa [this] at harr
          · intro l3 hl3
            have : data.getD (itr+3) "" = l3 := by
              show (data.get? (itr+3)).getD "" = l3
              rw [hl3]
              rfl
            rwa [this] at hloc
        cases hpb : parseBlock data itr with
        | error e =>
          cases e with
          | index => exact absurd hpb hnoidx
          | value =>
            refine Exists.imp (fun l hl => ?_) (ih (itr+1) (counter+1) hrest)
            simp only [srtLoop, hint, if_pos hn, hpb, hl]
        | ok r =>
          obtain ⟨l, hl⟩ := ih (itr+1) (counter+1) hrest
          exact ⟨r :: l, by simp only [srtLoop, hint, if_pos hn, hpb, hl]⟩
      · simp only [srtLoop, hint, if_neg hn]
        exact ih (itr+1) counter hrest

theorem keyE_ok {α : Type} {o : Option α} {k : String} {v : α}
    (h : keyE o k = Except.ok v) : o = some v := by
  cases o with
  | none => simp [keyE] at h
  | some a =>
    simp only [keyE, Except.ok.injEq] at h
    rw [h]

theorem idxE_ok {l : List String} {i : ℕ} {s : String}
    (h : idxE l i = Except.ok s) : l.get? i = some s := by
  unfold idxE at h
  cases hg : l.get? i with
  | none => rw [hg] at h; simp at h
  | some t =>
    rw [hg] at h
    simp only [Except.ok.injEq] at h
    rw [h]

theorem floatE_ok {s : String} {q : Q} (h : floatE s = Except.ok q) :
    pyFloat? s = some q := by
  unfold floatE at h
  cases hg : pyFloat? s with
  | none => rw [hg] at h; simp at h
  | some t =>
    rw [hg] at h
    simp only [Except.ok.injEq] at h
    rw [h]

theorem intS_ok {s : String} {z : ℤ} (h : intS s = Except.ok z) :
    pyInt? s = some z := by
  unfold intS at h
  cases hg : pyInt? s with
  | none => rw [hg] at h; simp at h
  | some t =>
    rw [hg] at h
    simp only [Except.ok.injEq] at h
    rw [h]

theorem readfromimage_ok_elim {e : ExifTags} {g : GeoTags} {r : ImgRecord}
    (h : readfromimage e g = Except.ok r) :
    ∃ dt w ht fl latDms latRef lngDms lngRef dir alt uc t4 yaw t6 pitch t8 roll mk mdl,
      e.DateTimeOriginal = some dt ∧ e.ImageWidth = some w ∧ e.ImageLength = some ht ∧
      e.FocalLength = some fl ∧ g.GPSLatitude = some latDms ∧
      g.GPSLatitudeRef = some latRef ∧ g.GPSLongitude = some lngDms ∧
      g.GPSLongitudeRef = some lngRef ∧ g.GPSImgDirection = some dir ∧
      g.GPSAltitude = some alt ∧ e.UserComment = some uc ∧
      (splitComment uc).get? 4 = some t4 ∧ pyFloat? t4 = some yaw ∧
      (splitComment uc).get? 6 = some t6 ∧ pyFloat? t6 = some pitch ∧
      (splitComment uc).get? 8 = some t8 ∧ pyFloat? t8 = some roll ∧
      e.Make = some mk ∧ e.Model = some mdl ∧
      r = { datetime := dt, imgwidth := w, imgheight := ht,
            focallength := (Q.ofInt fl.1).div (Q.ofInt fl.2),
            lat := get_decimal_from_dms latDms latRef,
            lng := get_decimal_from_dms lngDms lngRef,
            heading := (Q.ofInt dir.1).div (Q.ofInt dir.2),
            altitude := (Q.ofInt alt.1).div (Q.ofInt alt.2),
            yaw := yaw, pitch := pitch, roll := roll,
            senwidth := if isKnownDevice mk mdl then some sen_width else none,
            senheight := if isKnownDevice mk mdl then some sen_height else none,
            h_fov := if isKnownDevice mk mdl then some h_fov_const else none } := by
  unfold readfromimage at h
  obtain ⟨dt, hdt, h⟩ := ebind_ok h
  obtain ⟨w, hw, h⟩ := ebind_ok h
  obtain ⟨ht, hht, h⟩ := ebind_ok h
  obtain ⟨fl, hfl, h⟩ := ebind_ok h
  obtain ⟨latDms, hlat, h⟩ := ebind_ok h
  obtain ⟨latRef, hlatr, h⟩ := ebind_ok h
  obtain ⟨lngDms, hlng, h⟩ := ebind_ok h
  obtain ⟨lngRef, hlngr, h⟩ := ebind_ok h
  obtain ⟨dir, hdir, h⟩ := ebind_ok h
  obtain ⟨alt, halt, h⟩ := ebind_ok h
  obtain ⟨uc, huc, h⟩ := ebind_ok h
  obtain ⟨t4, ht4, h⟩ := ebind_ok h
  obtain ⟨yaw, hyaw, h⟩ := ebind_ok h
  obtain ⟨t6, ht6, h⟩ := ebind_ok h
  obtain ⟨pitch, hpitch, h⟩ := ebind_ok h
  obtain ⟨t8, ht8, h⟩ := ebind_ok h
  obtain ⟨roll, hroll, h⟩ := ebind_ok h
  obtain ⟨mk, hmk, h⟩ := ebind_ok h
  obtain ⟨mdl, hmdl, h⟩ := ebind_ok h
  injection h with h
  exact ⟨dt, w, ht, fl, latDms, latRef, lngDms, lngRef, dir, alt, uc, t4, yaw, t6,
    pitch, t8, roll, mk, mdl, keyE_ok hdt, keyE_ok hw, keyE_ok hht, keyE_ok hfl,
    keyE_ok hlat, keyE_ok hlatr, keyE_ok hlng, keyE_ok hlngr, keyE_ok hdir,
    keyE_ok halt, keyE_ok huc, idxE_ok ht4, floatE_ok hyaw, idxE_ok ht6,
    floatE_ok hpitch, idxE_ok ht8, floatE_ok hroll, keyE_ok hmk, keyE_ok hmdl, h.symm⟩

/-- Claim C1, counterexample: the claim says `extractVideoLog` never aborts on
any file content, naming a counter line that is the last line of the file as a
case that is skipped; but on the one-line file `["1"]` the source evaluates
`data[itr+3]`, and the resulting `IndexError` is not caught by the
`except ValueError` handler, so it escapes the call. -/
theorem extractVideoLog_aborts_on_truncated_file :
    readfromsrt ["1"] = Except.error PyErr.index := by decide

/-- Claim C1 (amended): `extractVideoLog` never aborts and returns a (possibly
empty) record list, with blocks whose numeric fields fail to parse silently
skipped, PROVIDED every line that parses as an integer is followed by at least
three further lines, its timing line contains the `-->` marker, and its
coordinate line splits into at least 13 tokens; content errors violating those
structural bounds raise an uncaught `IndexError` instead. -/
theorem extractVideoLog_total_on_structured_content (data : List String)
    (H : ∀ itr, itr < data.length → (pyInt? (data.getD itr "")).isSome = true →
      itr + 3 < data.length ∧ 2 ≤ (splitArrow (data.getD (itr+1) "")).length ∧
      13 ≤ (splitLoc (data.getD (itr+3) "")).length) :
    ∃ l, readfromsrt data = Except.ok l :=
  srtLoop_structured_ok data H data 0 1 rfl

/-- Witness for the amended C1 at a concrete structurally well-formed file. -/
theorem extractVideoLog_total_witness : ∃ l, readfromsrt srtOkData = Except.ok l :=
  extractVideoLog_total_on_structured_content srtOkData (by decide)

/-- Claim C3: on a log with a well-formed block 1, a block 2 whose coordinate
line has a non-numeric token, and a well-formed block 3, the call returns
exactly the two records of blocks 1 and 3 in order, and no exception
escapes. -/
theorem extractVideoLog_skips_malformed_block :
    readfromsrt srtData3 = Except.ok [srtRec1, srtRec3] := by decide

/-- Claim C7: however many consecutive open attempts fail, the exporter is
still retrying (no data discarded, no crash), and as soon as an attempt
succeeds the output is the full header row followed by one row per record in
input order. -/
theorem tableExporter_retries_until_success (n : ℕ) (cols : List String)
    (records : List (List (String × String))) :
    writeTableRetry (List.replicate n false) cols records = none ∧
    writeTableRetry (List.replicate n false ++ [true]) cols records =
      some (cols :: records.map (writerow cols)) := by
  induction n with
  | zero => exact ⟨rfl, rfl⟩
  | succ n ih =>
    refine ⟨?_, ?_⟩
    · simpa [List.replicate_succ, writeTableRetry] using ih.1
    · simpa [List.replicate_succ, writeTableRetry] using ih.2

theorem round6_multiple (q : Q) :
    ∃ k : ℤ, (round6 q).toRat = (k : ℚ) / 1000000 :=
  ⟨(q.mul ⟨1000000, 1⟩).rnd, by norm_num [round6, Q.toRat]⟩

/-- Claim C8: the converter's output is an exact integer multiple of 10⁻⁶ —
rounding to 6 decimal places retains no further precision. -/
theorem coordinate_converter_six_decimals (dms : (ℤ × ℤ) × (ℤ × ℤ) × (ℤ × ℤ))
    (ref : String) :
    ∃ k : ℤ, (get_decimal_from_dms dms ref).toRat = (k : ℚ) / 1000000 := by
  unfold get_decimal_from_dms
  split <;> exact round6_multiple _

/-- Claim C2: the converter computes `round(d + m/60 + s/3600, 6)` with every
term negated (equivalently, the sum negated) when the reference is S or W; in
particular degrees (10,1), minutes (30,1), seconds (0,1) give 10.5 for N and
-10.5 for S. -/
theorem coordinate_converter_formula (dn dd mn md sn sd : ℤ) (ref : String)
    (hdd : dd ≠ 0) (hmd : md ≠ 0) (hsd : sd ≠ 0)
    (href : ref = "N" ∨ ref = "S" ∨ ref = "E" ∨ ref = "W") :
    (get_decimal_from_dms ((dn, dd), (mn, md), (sn, sd)) ref).toRat =
      round6Rat ((if ref = "S" ∨ ref = "W" then (-1 : ℚ) else 1) *
        ((dn : ℚ)/(dd : ℚ) + (mn : ℚ)/(md : ℚ)/60 + (sn : ℚ)/(sd : ℚ)/3600)) ∧
    (get_decimal_from_dms ((10, 1), (30, 1), (0, 1)) "N").toRat = 10.5 ∧
    (get_decimal_from_dms ((10, 1), (30, 1), (0, 1)) "S").toRat = -10.5 := by
  refine ⟨?_, ?_, ?_⟩
  · have h60 : ((Q.ofInt 60).toRat) = 60 := by norm_num [Q.toRat, Q.ofInt]
    have h3600 : ((Q.ofInt 3600).toRat) = 3600 := by norm_num [Q.toRat, Q.ofInt]
    have eD : ((Q.ofInt dn).div (Q.ofInt dd)).toRat = (dn : ℚ)/(dd : ℚ) := by
      rw [Q.toRat_div, Q.toRat_ofInt, Q.toRat_ofInt]
    have eM : (((Q.ofInt mn).div (Q.ofInt md)).div (Q.ofInt 60)).toRat =
        (mn : ℚ)/(md : ℚ)/60 := by
      rw [Q.toRat_div, Q.toRat_div, Q.toRat_ofInt, Q.toRat_ofInt, h60]
    have eS : (((Q.ofInt sn).div (Q.ofInt sd)).div (Q.ofInt 3600)).toRat =
        (sn : ℚ)/(sd : ℚ)/3600 := by
      rw [Q.toRat_div, Q.toRat_div, Q.toRat_ofInt, Q.toRat_ofInt, h3600]
    have hdD : ((Q.ofInt dn).div (Q.ofInt dd)).den ≠ 0 := by
      simp only [Q.div, Q.ofInt, one_mul]
      exact hdd
    have hdM : (((Q.ofInt mn).div (Q.ofInt md)).div (Q.ofInt 60)).den ≠ 0 := by
      simp only [Q.div, Q.ofInt, one_mul]
      exact mul_ne_zero hmd (by norm_num)
    have hdS : (((Q.ofInt sn).div (Q.ofInt sd)).div (Q.ofInt 3600)).den ≠ 0 := by
      simp only [Q.div, Q.ofInt, one_mul]
      exact mul_ne_zero hsd (by norm_num)
    unfold get_decimal_from_dms
    by_cases hsw : ref = "S" ∨ ref = "W"
    · rw [if_pos hsw, if_pos hsw]
      rw [round6_toRat (by
        simp only [Q.add, Q.neg, Q.mul]
        exact mul_ne_zero (mul_ne_zero hdD hdM) hdS)]
      congr 1
      rw [Q.toRat_add (by simpa [Q.add, Q.neg] using mul_ne_zero hdD hdM)
            (by simpa [Q.neg] using hdS),
          Q.toRat_add (by simpa [Q.neg] using hdD) (by simpa [Q.neg] using hdM),
          Q.toRat_neg, Q.toRat_neg, Q.toRat_neg, eD, eM, eS]
      ring
    · rw [if_neg hsw, if_neg hsw]
      rw [round6_toRat (by
        simp only [Q.add]
        exact mul_ne_zero (mul_ne_zero hdD hdM) hdS)]
      congr 1
      rw [Q.toRat_add (by simpa [Q.add] using mul_ne_zero hdD hdM) hdS,
          Q.toRat_add hdD hdM, eD, eM, eS]
      ring
  · rw [show get_decimal_from_dms ((10, 1), (30, 1), (0, 1)) "N" =
        (⟨10500000, 1000000⟩ : Q) from by decide]
    norm_num [Q.toRat]
  · rw [show get_decimal_from_dms ((10, 1), (30, 1), (0, 1)) "S" =
        (⟨-10500000, 1000000⟩ : Q) from by decide]
    norm_num [Q.toRat]

/-- Witness for C2 at the documented example input. -/
theorem coordinate_converter_formula_witness :
    (get_decimal_from_dms ((10, 1), (30, 1), (0, 1)) "N").toRat =
      round6Rat ((if ("N" : String) = "S" ∨ ("N" : String) = "W" then (-1 : ℚ) else 1) *
        ((10 : ℚ)/(1 : ℚ) + (30 : ℚ)/(1 : ℚ)/60 + (0 : ℚ)/(1 : ℚ)/3600)) ∧
    (get_decimal_from_dms ((10, 1), (30, 1), (0, 1)) "N").toRat = 10.5 ∧
    (get_decimal_from_dms ((10, 1), (30, 1), (0, 1)) "S").toRat = -10.5 :=
  coordinate_converter_formula 10 1 30 1 0 1 "N" (by decide) (by decide) (by decide)
    (Or.inl rfl)

/-- Claim C4: a successfully extracted record carries the three sensor
constants exactly when the make/model pair matches `samsung` / `sm-a505f`
case-insensitively (the constants being 5.18 mm, 3.89 mm and 66.8°), and
carries none of them otherwise. -/
theorem extractImage_device_gating (e : ExifTags) (g : GeoTags) (r : ImgRecord)
    (mk mdl : String) (hok : readfromimage e g = Except.ok r)
    (hmk : e.Make = some mk) (hmdl : e.Model = some mdl) :
    (isKnownDevice mk mdl = true →
      r.senwidth = some sen_width ∧ r.senheight = some sen_height ∧
      r.h_fov = some h_fov_const) ∧
    (isKnownDevice mk mdl = false →
      r.senwidth = none ∧ r.senheight = none ∧ r.h_fov = none) ∧
    sen_width.toRat = 5.18 ∧ sen_height.toRat = 3.89 ∧ h_fov_const.toRat = 66.8 := by
  obtain ⟨dt, w, ht, fl, latDms, latRef, lngDms, lngRef, dir, alt, uc, t4, yaw, t6,
    pitch, t8, roll, mk2, mdl2, h1, h2, h3, h4, h5, h6, h7, h8, h9, h10, h11, h12,
    h13, h14, h15, h16, h17, hmk2, hmdl2, hr⟩ := readfromimage_ok_elim hok
  rw [hmk] at hmk2
  rw [hmdl] at hmdl2
  injection hmk2 with hmk2
  injection hmdl2 with hmdl2
  subst hmk2
  subst hmdl2
  subst hr
  refine ⟨?_, ?_, ?_, ?_, ?_⟩
  · intro hk
    simp [hk]
  · intro hk
    simp [hk]
  · norm_num [sen_width, Q.toRat]
  · norm_num [sen_height, Q.toRat]
  · norm_num [h_fov_const, Q.toRat]

/-- Witness for C4 at a concrete matching image. -/
theorem extractImage_device_gating_witness :
    imgRecA.senwidth = some sen_width ∧ imgRecA.senheight = some sen_height ∧
    imgRecA.h_fov = some h_fov_const :=
  (extractImage_device_gating exifA geoA imgRecA "samsung" "SM-A505F"
    (by decide) rfl rfl).1 (by decide)

/-- Claim C5: a successfully extracted record's yaw, pitch and roll are the
numeric values at 0-indexed positions 4, 6 and 8 of the orientation comment
split on the characters NUL, `^`, `:`, `,`. -/
theorem extractImage_orientation_positions (e : ExifTags) (g : GeoTags)
    (r : ImgRecord) (uc : String) (hok : readfromimage e g = Except.ok r)
    (huc : e.UserComment = some uc) :
    ∃ t4 t6 t8, (splitComment uc).get? 4 = some t4 ∧
      (splitComment uc).get? 6 = some t6 ∧ (splitComment uc).get? 8 = some t8 ∧
      pyFloat? t4 = some r.yaw ∧ pyFloat? t6 = some r.pitch ∧
      pyFloat? t8 = some r.roll := by
  obtain ⟨dt, w, ht, fl, latDms, latRef, lngDms, lngRef, dir, alt, uc2, t4, yaw, t6,
    pitch, t8, roll, mk2, mdl2, h1, h2, h3, h4, h5, h6, h7, h8, h9, h10, huc2, h12,
    h13, h14, h15, h16, h17, hmk2, hmdl2, hr⟩ := readfromimage_ok_elim hok
  rw [huc] at huc2
  injection huc2 with huc2
  subst huc2
  subst hr
  exact ⟨t4, t6, t8, h12, h14, h16, h13, h15, h17⟩

/-- Witness for C5 at a concrete image with an orientation comment. -/
theorem extractImage_orientation_witness :
    ∃ t4 t6 t8,
      (splitComment "0,1,2,3,40.5,5,20.25,7,0.75").get? 4 = some t4 ∧
      (splitComment "0,1,2,3,40.5,5,20.25,7,0.75").get? 6 = some t6 ∧
      (splitComment "0,1,2,3,40.5,5,20.25,7,0.75").get? 8 = some t8 ∧
      pyFloat? t4 = some imgRecA.yaw ∧ pyFloat? t6 = some imgRecA.pitch ∧
      pyFloat? t8 = some imgRecA.roll :=
  extractImage_orientation_positions exifA geoA imgRecA
    "0,1,2,3,40.5,5,20.25,7,0.75" (by decide) rfl

/-- Claim C9: `extractImage` unconditionally requires the `GPSAltitude` tag —
when it is absent the extraction fails, and every successfully returned record
carries the altitude value computed from that tag. -/
theorem extractImage_requires_altitude (e : ExifTags) (g : GeoTags) :
    (g.GPSAltitude = none → ∃ err, readfromimage e g = Except.error err) ∧
    (∀ r, readfromimage e g = Except.ok r →
      ∃ n d, g.GPSAltitude = some (n, d) ∧
        r.altitude = (Q.ofInt n).div (Q.ofInt d)) := by
  constructor
  · intro hnone
    cases hres : readfromimage e g with
    | error err => exact ⟨err, rfl⟩
    | ok r =>
      obtain ⟨dt, w, ht, fl, latDms, latRef, lngDms, lngRef, dir, alt, uc, t4, yaw,
        t6, pitch, t8, roll, mk2, mdl2, h1, h2, h3, h4, h5, h6, h7, h8, h9, halt,
        h11, h12, h13, h14, h15, h16, h17, hmk2, hmdl2, hr⟩ :=
        readfromimage_ok_elim hres
      rw [hnone] at halt
      exact absurd halt (by simp)
  · intro r hres
    obtain ⟨dt, w, ht, fl, latDms, latRef, lngDms, lngRef, dir, alt, uc, t4, yaw,
      t6, pitch, t8, roll, mk2, mdl2, h1, h2, h3, h4, h5, h6, h7, h8, h9, halt,
      h11, h12, h13, h14, h15, h16, h17, hmk2, hmdl2, hr⟩ :=
      readfromimage_ok_elim hres
    refine ⟨alt.1, alt.2, ?_, ?_⟩
    · rw [halt]
    · rw [hr]

/-- Witness for C9: a concrete image lacking `GPSAltitude` fails. -/
theorem extractImage_requires_altitude_witness :
    ∃ err, readfromimage exifA geoNoAlt = Except.error err :=
  (extractImage_requires_altitude exifA geoNoAlt).1 rfl

/-- Claim C6: the batch extractor propagates the first per-image failure and
aborts the whole batch — no record list and no table, not even for the images
that preceded the failing one (the `Except.error` result carries nothing). -/
theorem extractImageBatch_aborts_on_first_failure
    (fs : String → Option (ExifTags × GeoTags)) (pre : List String) (p : String)
    (post : List String) (b : Bool) (err : ImgErr)
    (hpre : ∀ q ∈ pre, ∃ v, extractOne fs q = Except.ok v)
    (hfail : extractOne fs p = Except.error err) :
    readfrombatch fs (pre ++ p :: post) b = Except.error err := by
  have hgo : ∀ l, (∀ q ∈ l, ∃ v, extractOne fs q = Except.ok v) →
      readfrombatchGo fs (l ++ p :: post) = Except.error err := by
    intro l
    induction l with
    | nil =>
      intro _
      show readfrombatchGo fs (p :: post) = _
      simp only [readfrombatchGo, hfail, ebind]
    | cons q l ih =>
      intro hq
      obtain ⟨v, hv⟩ := hq q (List.mem_cons_self q l)
      have hrec := ih (fun x hx => hq x (List.mem_cons_of_mem q hx))
      show readfrombatchGo fs (q :: (l ++ p :: post)) = _
      simp only [readfrombatchGo, hv, ebind, hrec]
  unfold readfrombatch
  rw [hgo pre hpre]
  rfl

/-- Witness for C6: a two-path batch whose second path does not exist aborts
with the file-not-found error even though the first path extracts fine. -/
theorem extractImageBatch_aborts_witness :
    readfrombatch fsW ["a.jpg", "b.jpg"] true = Except.error ImgErr.fileNotFound := by
  refine extractImageBatch_aborts_on_first_failure fsW ["a.jpg"] "b.jpg" [] true
    ImgErr.fileNotFound ?_ (by decide)
  intro q hq
  rw [List.mem_singleton] at hq
  subst hq
  exact ⟨batchRecA, by decide⟩

theorem dms_sum_toRat (a b c : ℤ) :
    ((((Q.ofInt a).add ((Q.ofInt b).div (Q.ofInt 60))).add
      ((Q.ofInt c).div (Q.ofInt 3600))).toRat) =
      (a : ℚ) + (b : ℚ)/60 + (c : ℚ)/3600 := by
  have h1 : (Q.ofInt a).den ≠ 0 := one_ne_zero
  have h2 : ((Q.ofInt b).div (Q.ofInt 60)).den ≠ 0 := by norm_num [Q.div, Q.ofInt]
  have h3 : ((Q.ofInt a).add ((Q.ofInt b).div (Q.ofInt 60))).den ≠ 0 := by
    norm_num [Q.add, Q.div, Q.ofInt]
  have h4 : ((Q.ofInt c).div (Q.ofInt 3600)).den ≠ 0 := by norm_num [Q.div, Q.ofInt]
  rw [Q.toRat_add h3 h4, Q.toRat_add h1 h2, Q.toRat_div, Q.toRat_div,
    Q.toRat_ofInt, Q.toRat_ofInt, Q.toRat_ofInt, Q.toRat_ofInt, Q.toRat_ofInt]
  norm_num

theorem dms_sum_den (a b c : ℤ) :
    ((((Q.ofInt a).add ((Q.ofInt b).div (Q.ofInt 60))).add
      ((Q.ofInt c).div (Q.ofInt 3600))).den) ≠ 0 := by
  norm_num [Q.add, Q.div, Q.ofInt]

/-- Claim C10: `extractVideoLog` applies no hemisphere reference — a parsed
block whose degree/minute/second tokens are non-negative integers yields
non-negative latitude and longitude; only the tokens themselves could carry a
sign. -/
theorem extractVideoLog_latlng_nonneg (data : List String) (itr : ℕ)
    (r : SrtRecord) (line3 t0 t1 t2 u0 u1 u2 : String) (d0 d1 d2 g0 g1 g2 : ℤ)
    (hok : parseBlock data itr = Except.ok r)
    (hline : data.get? (itr+3) = some line3)
    (ht0 : (splitLoc line3).get? 0 = some t0) (hd0 : pyInt? t0 = some d0)
    (hn0 : 0 ≤ d0)
    (ht1 : (splitLoc line3).get? 1 = some t1) (hd1 : pyInt? t1 = some d1)
    (hn1 : 0 ≤ d1)
    (ht2 : (splitLoc line3).get? 2 = some t2) (hd2 : pyInt? t2 = some d2)
    (hn2 : 0 ≤ d2)
    (hu0 : (splitLoc line3).get? 5 = some u0) (hg0 : pyInt? u0 = some g0)
    (hm0 : 0 ≤ g0)
    (hu1 : (splitLoc line3).get? 6 = some u1) (hg1 : pyInt? u1 = some g1)
    (hm1 : 0 ≤ g1)
    (hu2 : (splitLoc line3).get? 7 = some u2) (hg2 : pyInt? u2 = some g2)
    (hm2 : 0 ≤ g2) :
    0 ≤ r.lat.toRat ∧ 0 ≤ r.lng.toRat := by
  unfold parseBlock at hok
  obtain ⟨line3x, hline3x, hok⟩ := ebind_ok hok
  rw [idxS_ok, hline] at hline3x
  injection hline3x with hline3x
  subst hline3x
  obtain ⟨line1, hline1, hok⟩ := ebind_ok hok
  obtain ⟨e0, he0, hok⟩ := ebind_ok hok
  obtain ⟨line2, hline2, hok⟩ := ebind_ok hok
  obtain ⟨a0, ha0, hok⟩ := ebind_ok hok
  rw [idxS_ok, ht0] at ha0
  injection ha0 with ha0
  subst ha0
  obtain ⟨d0x, hd0x, hok⟩ := ebind_ok hok
  have hd0x2 := intS_ok hd0x
  rw [hd0] at hd0x2
  injection hd0x2 with hd0x2
  subst hd0x2
  obtain ⟨a1, ha1, hok⟩ := ebind_ok hok
  rw [idxS_ok, ht1] at ha1
  injection ha1 with ha1
  subst ha1
  obtain ⟨d1x, hd1x, hok⟩ := ebind_ok hok
  have hd1x2 := intS_ok hd1x
  rw [hd1] at hd1x2
  injection hd1x2 with hd1x2
  subst hd1x2
  obtain ⟨a2, ha2, hok⟩ := ebind_ok hok
  rw [idxS_ok, ht2] at ha2
  injection ha2 with ha2
  subst ha2
  obtain ⟨d2x, hd2x, hok⟩ := ebind_ok hok
  have hd2x2 := intS_ok hd2x
  rw [hd2] at hd2x2
  injection hd2x2 with hd2x2
  subst hd2x2
  obtain ⟨b0, hb0, hok⟩ := ebind_ok hok
  rw [idxS_ok, hu0] at hb0
  injection hb0 with hb0
  subst hb0
  obtain ⟨g0x, hg0x, hok⟩ := ebind_ok hok
  have hg0x2 := intS_ok hg0x
  rw [hg0] at hg0x2
  injection hg0x2 with hg0x2
  subst hg0x2
  obtain ⟨b1, hb1, hok⟩ := ebind_ok hok
  rw [idxS_ok, hu1] at hb1
  injection hb1 with hb1
  subst hb1
  obtain ⟨g1x, hg1x, hok⟩ := ebind_ok hok
  have hg1x2 := intS_ok hg1x
  rw [hg1] at hg1x2
  injection hg1x2 with hg1x2
  subst hg1x2
  obtain ⟨b2, hb2, hok⟩ := ebind_ok hok
  rw [idxS_ok, hu2] at hb2
  injection hb2 with hb2
  subst hb2
  obtain ⟨g2x, hg2x, hok⟩ := ebind_ok hok
  have hg2x2 := intS_ok hg2x
  rw [hg2] at hg2x2
  injection hg2x2 with hg2x2
  subst hg2x2
  obtain ⟨h12, hh12, hok⟩ := ebind_ok hok
  obtain ⟨heading, hheading, hok⟩ := ebind_ok hok
  obtain ⟨a10, ha10, hok⟩ := ebind_ok hok
  obtain ⟨altitude, haltitude, hok⟩ := ebind_ok hok
  obtain ⟨fs, hfs, hok⟩ := ebind_ok hok
  obtain ⟨fe, hfe, hok⟩ := ebind_ok hok
  injection hok with hok
  rw [← hok]
  have c0 : (0 : ℚ) ≤ (d0 : ℚ) := by exact_mod_cast hn0
  have c1 : (0 : ℚ) ≤ (d1 : ℚ) := by exact_mod_cast hn1
  have c2 : (0 : ℚ) ≤ (d2 : ℚ) := by exact_mod_cast hn2
  have c3 : (0 : ℚ) ≤ (g0 : ℚ) := by exact_mod_cast hm0
  have c4 : (0 : ℚ) ≤ (g1 : ℚ) := by exact_mod_cast hm1
  have c5 : (0 : ℚ) ≤ (g2 : ℚ) := by exact_mod_cast hm2
  constructor
  · show 0 ≤ (round6 _).toRat
    rw [round6_toRat (dms_sum_den d0 d1 d2), dms_sum_toRat]
    exact round6Rat_nonneg (by
      exact add_nonneg (add_nonneg c0 (div_nonneg c1 (by norm_num)))
        (div_nonneg c2 (by norm_num)))
  · show 0 ≤ (round6 _).toRat
    rw [round6_toRat (dms_sum_den g0 g1 g2), dms_sum_toRat]
    exact round6Rat_nonneg (by
      exact add_nonneg (add_nonneg c3 (div_nonneg c4 (by norm_num)))
        (div_nonneg c5 (by norm_num)))

/-- Witness for C10 at block 1 of the concrete log. -/
theorem extractVideoLog_latlng_nonneg_witness :
    0 ≤ srtRec1.lat.toRat ∧ 0 ≤ srtRec1.lng.toRat :=
  extractVideoLog_latlng_nonneg srtData3 0 srtRec1
    "10 20 30 x x 11 21 31 x x 99.9m x 250.0\n" "10" "20" "30" "11" "21" "31"
    10 20 30 11 21 31 (by decide) (by decide)
    (by decide) (by decide) (by decide)
    (by decide) (by decide) (by decide)
    (by decide) (by decide) (by decide)
    (by decide) (by decide) (by decide)
    (by decide) (by decide) (by decide)
    (by decide) (by decide) (by decide)

end MetaReader
